import Mathlib

/-!
Verification development for the job-scheduler subsystem of the sales
research application (Rust sources under src-tauri/src).

The development shallowly embeds the Rust functions the claims are about:

* a JSON value type and parser modelling serde_json::from_str on the JSON
  subset this development needs (null, booleans, integer numerals, strings
  with the standard escapes, arrays, objects); fractional and exponent
  numerals are outside the subset and no input below uses them;
* jobs/stream_processor.rs: parse_stream_json_type and the bounded
  accumulation and flush logic of process_line / flush_buffer;
* db/queries.rs: insert_job_logs_batch_full, update_job_status, enrich_lead
  and enrich_person over list-of-rows models of the SQLite tables declared
  in db/mod.rs (init_schema);
* jobs/recovery.rs: detect_stale_jobs, detect_stuck_leads,
  detect_stuck_people, recover_stale_jobs, recover_stuck_entities;
* jobs/queue.rs: the sequence of job-status writes the supervising task
  performs along each control path;
* jobs/completion_handler.rs: the phase machine of process_completion over
  an explicit domain-database and output-file state;
* commands/research.rs: extract_json_from_stdout.

SQLite statements are modelled as total transformations of row lists (an
UPDATE or DELETE on a list cannot fail); chrono timestamps are explicit
integer parameters; file-system reads and removals act on an explicit
file-state record.
-/

/-! ## JSON values, modelling serde_json::Value -/

inductive Json where
  | null : Json
  | bool (b : Bool) : Json
  | num (n : Int) : Json
  | str (s : String) : Json
  | arr (elems : List Json) : Json
  | obj (fields : List (String × Json)) : Json

/-- Value::is_object. -/
def Json.isObj : Json → Bool
  | .obj _ => true
  | _ => false

/-- Value::get(key): field lookup on objects, None on every other value. -/
def jGet (j : Json) (k : String) : Option Json :=
  match j with
  | .obj fields => (fields.find? (fun f => f.1 = k)).map (fun f => f.2)
  | _ => none

/-- Value::as_str. -/
def jStr? : Json → Option String
  | .str s => some s
  | _ => none

/-- Value::as_bool. -/
def jBool? : Json → Option Bool
  | .bool b => some b
  | _ => none

/-- Value::as_i64 (integer numerals only in this model). -/
def jInt? : Json → Option Int
  | .num n => some n
  | _ => none

/-- Value::as_array. -/
def jArr? : Json → Option (List Json)
  | .arr xs => some xs
  | _ => none

/-! ## A JSON parser, modelling serde_json::from_str

Recursive descent over the character list, with a fuel argument for
termination; the fuel passed by parseJson is generous enough for every
input (each unit of fuel spent is preceded by consuming at least one
character of the input). -/

def isJsonWs (c : Char) : Bool :=
  c = ' ' || c = '\n' || c = '\t' || c = '\r'

def skipWs (cs : List Char) : List Char :=
  cs.dropWhile isJsonWs

/-- Body of a JSON string after the opening quote; handles the standard
escapes; rejects unescaped control characters as serde does. -/
def parseStringBody : List Char → List Char → Option (String × List Char)
  | acc, '"' :: rest => some (String.mk acc.reverse, rest)
  | acc, '\\' :: e :: rest =>
    if e = '"' then parseStringBody ('"' :: acc) rest
    else if e = '\\' then parseStringBody ('\\' :: acc) rest
    else if e = '/' then parseStringBody ('/' :: acc) rest
    else if e = 'n' then parseStringBody ('\n' :: acc) rest
    else if e = 't' then parseStringBody ('\t' :: acc) rest
    else if e = 'r' then parseStringBody ('\r' :: acc) rest
    else none
  | acc, c :: rest =>
    if c.toNat < 32 then none else parseStringBody (c :: acc) rest
  | _, [] => none

/-- Digit run at the head of the input as a Nat, with serde's
no-leading-zero rule. -/
def parseNatLit (cs : List Char) : Option (Nat × List Char) :=
  let digits := cs.takeWhile Char.isDigit
  if digits.isEmpty then none
  else if 1 < digits.length && digits.head? = some '0' then none
  else some (digits.foldl (fun a c => a * 10 + (c.toNat - 48)) 0,
             cs.drop digits.length)

mutual

def parseVal : Nat → List Char → Option (Json × List Char)
  | 0, _ => none
  | n + 1, cs =>
    match skipWs cs with
    | [] => none
    | c :: rest =>
      if c = '{' then
        match skipWs rest with
        | '}' :: rest2 => some (.obj [], rest2)
        | more => match parseFields n more with
          | some (fs, rest2) => some (.obj fs, rest2)
          | none => none
      else if c = '[' then
        match skipWs rest with
        | ']' :: rest2 => some (.arr [], rest2)
        | more => match parseElems n more with
          | some (xs, rest2) => some (.arr xs, rest2)
          | none => none
      else if c = '"' then
        match parseStringBody [] rest with
        | some (s, rest2) => some (.str s, rest2)
        | none => none
      else if c = 't' then
        match rest with
        | 'r' :: 'u' :: 'e' :: rest2 => some (.bool true, rest2)
        | _ => none
      else if c = 'f' then
        match rest with
        | 'a' :: 'l' :: 's' :: 'e' :: rest2 => some (.bool false, rest2)
        | _ => none
      else if c = 'n' then
        match rest with
        | 'u' :: 'l' :: 'l' :: rest2 => some (.null, rest2)
        | _ => none
      else if c = '-' then
        match parseNatLit rest with
        | some (v, rest2) => some (.num (-(v : Int)), rest2)
        | none => none
      else if c.isDigit then
        match parseNatLit (c :: rest) with
        | some (v, rest2) => some (.num (v : Int), rest2)
        | none => none
      else none

def parseElems : Nat → List Char → Option (List Json × List Char)
  | 0, _ => none
  | n + 1, cs =>
    match parseVal n cs with
    | none => none
    | some (v, rest) =>
      match skipWs rest with
      | ',' :: rest2 =>
        match parseElems n rest2 with
        | some (vs, rest3) => some (v :: vs, rest3)
        | none => none
      | ']' :: rest2 => some ([v], rest2)
      | _ => none

def parseFields : Nat → List Char → Option (List (String × Json) × List Char)
  | 0, _ => none
  | n + 1, cs =>
    match skipWs cs with
    | '"' :: rest =>
      match parseStringBody [] rest with
      | none => none
      | some (k, rest2) =>
        match skipWs rest2 with
        | ':' :: rest3 =>
          match parseVal n rest3 with
          | none => none
          | some (v, rest4) =>
            match skipWs rest4 with
            | ',' :: rest5 =>
              match parseFields n rest5 with
              | some (fs, rest6) => some ((k, v) :: fs, rest6)
              | none => none
            | '}' :: rest5 => some ([(k, v)], rest5)
            | _ => none
        | _ => none
    | _ => none

end

/-- serde_json::from_str: one value, then only trailing whitespace. -/
def parseJson (s : String) : Option Json :=
  match parseVal (4 * (s.data.length + 1)) s.data with
  | some (j, rest) => if (skipWs rest).isEmpty then some j else none
  | none => none

/-! ## jobs/stream_processor.rs: parse_stream_json_type -/

/-- parse_stream_json_type (stream_processor.rs): log type and tool name
derived from one stdout line. -/
def parse_stream_json_type (line : String) : String × Option String :=
  match parseJson line with
  | some json =>
    let eventType := ((jGet json "type").bind jStr?).getD "unknown"
    let logType :=
      if eventType = "system" then "system"
      else if eventType = "assistant" then "assistant"
      else if eventType = "user" then "tool_result"
      else if eventType = "result" then
        if ((jGet json "is_error").bind jBool?).getD false then "error" else "info"
      else if eventType = "error" then "error"
      else if eventType = "content_block_start" || eventType = "content_block_delta" then
        "assistant"
      else "info"
    let toolName :=
      if eventType = "assistant" then
        (((jGet json "message").bind (fun m => jGet m "content")).bind jArr?).bind
          (fun blocks =>
            (blocks.find? (fun b => (jGet b "type").bind jStr? = some "tool_use")).bind
              (fun b => (jGet b "name").bind jStr?))
      else if eventType = "content_block_start" then
        (jGet json "content_block").bind (fun cb => (jGet cb "name").bind jStr?)
      else none
    (logType, toolName)
  | none => ("info", none)

/-! ## commands/research.rs: extract_json_from_stdout

String scanning is modelled over the character list; the Rust code indexes
by UTF-8 byte offset, which coincides with character positions on the
ASCII pattern strings it searches for. -/

/-- Index of the first occurrence of a character (str::find(char)). -/
def findCharIdx (c : Char) (cs : List Char) : Option Nat :=
  cs.findIdx? (fun x => x = c)

/-- Index of the first occurrence of a pattern (str::find(&str)). -/
def findSubstrIdx (pat : List Char) : List Char → Option Nat
  | [] => if pat.isEmpty then some 0 else none
  | c :: rest =>
    if pat.isPrefixOf (c :: rest) then some 0
    else (findSubstrIdx pat rest).map (· + 1)

/-- The brace-matching loop of extract_json_from_stdout: scanning from the
first brace, the position one past the brace that balances the count, or
none if the count never returns to zero. -/
def braceScan : List Char → Nat → Nat → Option Nat
  | [], _, _ => none
  | c :: rest, count, i =>
    if c = '{' then braceScan rest (count + 1) (i + 1)
    else if c = '}' then
      if count = 1 then some (i + 1) else braceScan rest (count - 1) (i + 1)
    else braceScan rest count (i + 1)

/-- str::trim (ASCII whitespace; the inputs below use no other). -/
def trimAscii (cs : List Char) : List Char :=
  ((cs.dropWhile isJsonWs).reverse.dropWhile isJsonWs).reverse

/-- extract_json_from_stdout (commands/research.rs): salvage a JSON value
from accumulated stdout. Tries, in order: the whole output parsed as a JSON
object; the first brace-balanced candidate starting at the first brace
(the function returns early with None when the text holds no brace at
all); a fenced code block opened by three backticks and the letters json;
any fenced code block with its first line skipped. -/
def extract_json_from_stdout (s : String) : Option Json :=
  let step1 : Option Json :=
    match parseJson s with
    | some j => if j.isObj then some j else none
    | none => none
  match step1 with
  | some j => some j
  | none =>
    match findCharIdx '{' s.data with
    | none => none
    | some start =>
      let tail := s.data.drop start
      let step2 : Option Json :=
        match braceScan tail 0 0 with
        | some stop => parseJson (String.mk (tail.take stop))
        | none => none
      match step2 with
      | some j => some j
      | none =>
        let fenceJson := "```json".data
        let fence := "```".data
        let step3 : Option Json :=
          match findSubstrIdx fenceJson s.data with
          | some c0 =>
            let afterCode := s.data.drop (c0 + 7)
            match findSubstrIdx fence afterCode with
            | some c1 => parseJson (String.mk (trimAscii (afterCode.take c1)))
            | none => none
          | none => none
        match step3 with
        | some j => some j
        | none =>
          match findSubstrIdx fence s.data with
          | some c0 =>
            let afterCode := s.data.drop (c0 + 3)
            match findCharIdx '\n' afterCode with
            | some nl =>
              let afterNewline := afterCode.drop (nl + 1)
              match findSubstrIdx fence afterNewline with
              | some c2 => parseJson (String.mk (trimAscii (afterNewline.take c2)))
              | none => none
            | none => none
          | none => none

/-! ## jobs/stream_processor.rs: bounded accumulation (process_line)

The accumulation branch of process_line depends only on byte lengths (the
accumulator is consulted through acc.len() and extended by the whole line
plus a newline), so the per-stream state is modelled by its byte counts.
A line of n bytes contributes n + 1 bytes (the newline) to both the
counters and, when appended, the accumulator. -/

def MAX_ACCUMULATED_OUTPUT_SIZE : Nat := 10 * 1024 * 1024

/-- Per-stream statistics and accumulator state of StreamProcessor for one
of stdout/stderr: byte length of the accumulated string, the total byte
and line counters, and the truncation flag. -/
structure StreamAccState where
  accLen : Nat
  totalBytes : Nat
  totalLines : Nat
  truncated : Bool

def initialStreamAcc : StreamAccState :=
  { accLen := 0, totalBytes := 0, totalLines := 0, truncated := false }

/-- One process_line call for a line of lineLen bytes: counters always
advance; the line (plus newline) is appended iff the accumulator is under
the bound; otherwise the truncation flag is set if not yet set. -/
def process_line_acc (lineLen : Nat) (st : StreamAccState) : StreamAccState :=
  let st := { st with totalBytes := st.totalBytes + lineLen + 1,
                      totalLines := st.totalLines + 1 }
  if st.accLen < MAX_ACCUMULATED_OUTPUT_SIZE then
    { st with accLen := st.accLen + lineLen + 1 }
  else if !st.truncated then
    { st with truncated := true }
  else st

/-- A whole stream processed line by line. -/
def processStream : List Nat → StreamAccState → StreamAccState
  | [], st => st
  | l :: ls, st => processStream ls (process_line_acc l st)

/-- Largest line length of a stream. -/
def maxLineLen (lines : List Nat) : Nat := lines.foldr max 0

/-! ## jobs/stream_processor.rs: flush_buffer -/

/-- BufferedLogEntry (stream_processor.rs). -/
structure BufferedLogEntry where
  job_id : String
  source : String
  log_type : String
  content : String
  tool_name : Option String
  sequence : Int
deriving DecidableEq

/-- BatchLogEntry (db/queries.rs). -/
structure BatchLogEntry where
  job_id : String
  log_type : String
  content : String
  tool_name : Option String
  sequence : Int
  source : String
deriving DecidableEq

/-- BufferedLogEntry::to_batch_entry. -/
def to_batch_entry (e : BufferedLogEntry) : BatchLogEntry :=
  { job_id := e.job_id, log_type := e.log_type, content := e.content,
    tool_name := e.tool_name, sequence := e.sequence, source := e.source }

/-- The job-logs-appended push notification payload. -/
structure JobLogsAppended where
  job_id : String
  count : Int
  last_sequence : Int
deriving DecidableEq

/-- Outcome of one flush_buffer call: the buffer it leaves behind, the
rows handed to the database insert, and the notification it emitted. -/
structure FlushResult where
  buffer : List BufferedLogEntry
  persisted : List BatchLogEntry
  notified : Option JobLogsAppended
deriving DecidableEq

/-- flush_buffer (stream_processor.rs): drain the buffer, insert to the
staging table, emit the push notification. The two failure modes of the
insert—the database lock not acquired (lockOk = false) and the insert
returning Err (insertOk = false)—are the branches of the source; a failed
insert is modelled as persisting nothing. In every failure branch the
source still emits the notification and the drained entries are gone from
the buffer. -/
def flush_buffer (jobId : String) (lockOk insertOk : Bool)
    (buffer : List BufferedLogEntry) : FlushResult :=
  if buffer.isEmpty then { buffer := buffer, persisted := [], notified := none }
  else
    let drained := buffer
    let batch := drained.map to_batch_entry
    let lastSeq := (drained.getLast?.map (fun e => e.sequence)).getD 0
    let count : Int := drained.length
    if !lockOk then
      { buffer := [], persisted := [],
        notified := some { job_id := jobId, count := count, last_sequence := lastSeq } }
    else if insertOk then
      { buffer := [], persisted := batch,
        notified := some { job_id := jobId, count := count, last_sequence := lastSeq } }
    else
      { buffer := [], persisted := [],
        notified := some { job_id := jobId, count := count, last_sequence := lastSeq } }

/-! ## db/queries.rs and db/mod.rs: the job_logs table

init_schema declares job_logs with columns (id AUTOINCREMENT, job_id,
log_type, content, tool_name, timestamp, sequence, source) and only plain
(non-UNIQUE) indexes: idx_job_logs_job_id on (job_id) and
idx_job_logs_sequence on (job_id, sequence). No UNIQUE constraint exists
on any column pair, so a plain INSERT always adds a row. The table is
modelled as the list of its rows in insertion order (the AUTOINCREMENT id
is the position and is not materialised). -/

structure JobLogRow where
  job_id : String
  log_type : String
  content : String
  tool_name : Option String
  timestamp : Int
  sequence : Int
  source : String
deriving DecidableEq

/-- The row a BatchLogEntry inserts (timestamp from the shared now). -/
def batchEntryRow (now : Int) (e : BatchLogEntry) : JobLogRow :=
  { job_id := e.job_id, log_type := e.log_type, content := e.content,
    tool_name := e.tool_name, timestamp := now, sequence := e.sequence,
    source := e.source }

/-- insert_job_logs_batch_full (db/queries.rs): one plain INSERT per
entry, in order; the schema has no UNIQUE constraint to reject anything. -/
def insert_job_logs_batch_full (now : Int) (tbl : List JobLogRow)
    (logs : List BatchLogEntry) : List JobLogRow :=
  tbl ++ logs.map (batchEntryRow now)

/-- The (sequence, job_id) pair is unique among the rows of the table. -/
def seqJobIdUnique (tbl : List JobLogRow) : Prop :=
  List.Pairwise (fun a b => ¬(a.job_id = b.job_id ∧ a.sequence = b.sequence)) tbl

/-- Number of rows of the table carrying a given (job_id, sequence) pair. -/
def seqJobIdCount (tbl : List JobLogRow) (jobId : String) (seq : Int) : Nat :=
  (tbl.filter (fun r => r.job_id = jobId && r.sequence = seq)).length

/-! ## db/queries.rs: update_job_status and the jobs table -/

/-- The columns of the jobs table this development uses (db/mod.rs
init_schema), as one row. -/
structure JobRow where
  id : String
  job_type : String
  entity_id : Int
  entity_label : String
  status : String
  exit_code : Option Int
  error_message : Option String
  created_at : Int
  started_at : Option Int
  completed_at : Option Int
deriving DecidableEq

/-- A status is terminal. -/
def isTerminalStatus (s : String) : Bool :=
  s = "completed" || s = "error" || s = "timeout" || s = "cancelled"

/-- The row-level effect of update_job_status (db/queries.rs): running
also sets started_at; a terminal status also sets exit_code,
error_message and completed_at; any other status string updates the
status column alone. No branch consults the current status: the update is
unconditional. -/
def updateJobStatusRow (now : Int) (status : String) (exitCode : Option Int)
    (errorMessage : Option String) (r : JobRow) : JobRow :=
  if status = "running" then
    { r with status := status, started_at := some now }
  else if status = "completed" || status = "error" || status = "timeout"
      || status = "cancelled" then
    { r with status := status, exit_code := exitCode,
             error_message := errorMessage, completed_at := some now }
  else
    { r with status := status }

/-- update_job_status over the table: UPDATE jobs ... WHERE id = job_id. -/
def update_job_status (now : Int) (jobId status : String) (exitCode : Option Int)
    (errorMessage : Option String) (tbl : List JobRow) : List JobRow :=
  tbl.map (fun r => if r.id = jobId then
    updateJobStatusRow now status exitCode errorMessage r else r)

/-! ## jobs/queue.rs: the status writes of one supervising task

start_job_with_callback writes the job-row status at fixed points of its
control flow: 'queued' at insert_job; then either an admission outcome
(queue timeout, cancellation while queued, semaphore error) or 'running'
on permit acquisition; after 'running' either a spawn failure or the
classification of the child's exit (exit code 0 mapping to 'completed'
with success = true, any other outcome to 'error'/'timeout'/'cancelled'
with success = false); finally, when process_completion returns Err, one
more write setting 'error'. process_completion returns Err only on a
success run (on success = false it marks the entity failed and returns
Ok), so the trailing write happens only after 'completed'. The trace
below lists the status values written, in order, for each control
path. -/

inductive QueueOutcome where
  | permitAcquired
  | semaphoreClosed
  | queueTimeout
  | cancelledWhileQueued
deriving DecidableEq

inductive RunOutcome where
  | exited (code : Int)
  | waitFailed
  | execTimeout
  | cancelledWhileRunning
deriving DecidableEq

/-- Classification of step i of the supervising task: job status and the
success flag handed to the stream processor finalisation. -/
def runResultStatus : RunOutcome → String × Bool
  | .exited code => if code = 0 then ("completed", true) else ("error", false)
  | .waitFailed => ("error", false)
  | .execTimeout => ("timeout", false)
  | .cancelledWhileRunning => ("cancelled", false)

/-- The sequence of status values start_job_with_callback writes to the
job row, by control path. completionFails says whether the completion
pipeline (verify/parse/database update) would return Err when run on a
success completion context. -/
def statusWrites (q : QueueOutcome) (spawnOk : Bool) (r : RunOutcome)
    (completionFails : Bool) : List String :=
  "queued" ::
    match q with
    | .semaphoreClosed => ["error"]
    | .queueTimeout => ["error"]
    | .cancelledWhileQueued => ["cancelled"]
    | .permitAcquired =>
      "running" ::
        if !spawnOk then ["error"]
        else
          let rc := runResultStatus r
          rc.1 :: (if rc.2 && completionFails then ["error"] else [])

/-- The claim's monotonicity property on consecutive writes: a write
following a terminal status must repeat it. -/
def terminalFinalStep (a b : String) : Prop :=
  isTerminalStatus a = true → b = a

/-- The transition relation the code actually obeys: queued may go to
running or any terminal status, running to any terminal status, and
completed may additionally be overwritten by error (the completion-handler
error path). -/
def statusStepAmended (a b : String) : Prop :=
  (a = "queued" ∧ (b = "running" ∨ isTerminalStatus b = true)) ∨
  (a = "running" ∧ isTerminalStatus b = true) ∨
  (a = "completed" ∧ b = "error")

instance : DecidableRel terminalFinalStep := fun a b =>
  inferInstanceAs (Decidable (isTerminalStatus a = true → b = a))

instance : DecidableRel statusStepAmended := fun a b =>
  inferInstanceAs (Decidable
    ((a = "queued" ∧ (b = "running" ∨ isTerminalStatus b = true)) ∨
     (a = "running" ∧ isTerminalStatus b = true) ∨
     (a = "completed" ∧ b = "error")))

/-! ## jobs/recovery.rs: stale jobs and stuck entities

The recovery database: the jobs table plus the two entity tables, each
kept as its rows. Only the columns recovery reads or writes are kept on
the entity rows. -/

structure RecLeadRow where
  id : Int
  company_name : String
  research_status : String
deriving DecidableEq

structure RecPersonRow where
  id : Int
  first_name : String
  last_name : String
  lead_id : Option Int
  research_status : String
deriving DecidableEq

structure RecDb where
  jobs : List JobRow
  leads : List RecLeadRow
  people : List RecPersonRow
deriving DecidableEq

def STALE_JOB_THRESHOLD_SECS : Int := 600

/-- The WHERE clause of detect_stale_jobs: status IN (queued, running)
AND created_at < now - STALE_JOB_THRESHOLD_SECS. -/
def staleJobPred (now : Int) (j : JobRow) : Bool :=
  (j.status = "queued" || j.status = "running")
    && decide (j.created_at < now - STALE_JOB_THRESHOLD_SECS)

/-- detect_stale_jobs (recovery.rs). The source orders by created_at; the
order is irrelevant to every property below and table order is kept. -/
def detect_stale_jobs (now : Int) (db : RecDb) : List JobRow :=
  db.jobs.filter (staleJobPred now)

/-- A queued or running job of the given type for the given entity exists
(the EXISTS subquery of the stuck-entity detections). -/
def hasActiveJobFor (jobs : List JobRow) (jobType : String) (entityId : Int) : Bool :=
  jobs.any (fun j => j.entity_id = entityId && j.job_type = jobType
    && (j.status = "queued" || j.status = "running"))

/-- detect_stuck_leads (recovery.rs). -/
def detect_stuck_leads (db : RecDb) : List RecLeadRow :=
  db.leads.filter (fun l => l.research_status = "in_progress"
    && !(hasActiveJobFor db.jobs "company_research" l.id))

/-- detect_stuck_people (recovery.rs). -/
def detect_stuck_people (db : RecDb) : List RecPersonRow :=
  db.people.filter (fun p => p.research_status = "in_progress"
    && !(hasActiveJobFor db.jobs "person_research" p.id))

/-- The job-table UPDATE of recover_stale_jobs for one stale job: status
error, error_message, completed_at = now, WHERE id. -/
def markJobRecovered (now : Int) (r : JobRow) : JobRow :=
  { r with status := "error", error_message := some "Recovered stale job",
           completed_at := some now }

/-- The lead UPDATE of recover_stale_jobs: research_status pending WHERE
id AND research_status = in_progress. -/
def resetLeadIfInProgress (leadId : Int) (l : RecLeadRow) : RecLeadRow :=
  if l.id = leadId && l.research_status = "in_progress" then
    { l with research_status := "pending" } else l

def resetPersonIfInProgress (personId : Int) (p : RecPersonRow) : RecPersonRow :=
  if p.id = personId && p.research_status = "in_progress" then
    { p with research_status := "pending" } else p

/-- recover_stale_jobs (recovery.rs): detect, then for each stale job mark
the job row error and reset the owning entity for the research kinds.
The loop body touches the three tables independently (the detected list is
computed up front), so it is written as one fold per table; the count
returned is the number of detected jobs, as in the source. -/
def recover_stale_jobs (now : Int) (db : RecDb) : RecDb × Nat :=
  let stale := detect_stale_jobs now db
  ({ jobs := stale.foldl (fun js j =>
        js.map (fun r => if r.id = j.id then markJobRecovered now r else r)) db.jobs,
     leads := stale.foldl (fun ls j =>
        if j.job_type = "company_research" then
          ls.map (resetLeadIfInProgress j.entity_id) else ls) db.leads,
     people := stale.foldl (fun ps j =>
        if j.job_type = "person_research" then
          ps.map (resetPersonIfInProgress j.entity_id) else ps) db.people },
   stale.length)

/-- recover_stuck_entities (recovery.rs): detect stuck leads and people on
the same database state, then reset each detected entity to pending (the
unconditional UPDATE ... SET research_status = pending WHERE id); the
count is the total number of detected entities. -/
def recover_stuck_entities (db : RecDb) : RecDb × Nat :=
  let stuckLeads := detect_stuck_leads db
  let stuckPeople := detect_stuck_people db
  ({ jobs := db.jobs,
     leads := stuckLeads.foldl (fun ls s =>
       ls.map (fun l => if l.id = s.id then
         { l with research_status := "pending" } else l)) db.leads,
     people := stuckPeople.foldl (fun ps s =>
       ps.map (fun p => if p.id = s.id then
         { p with research_status := "pending" } else p)) db.people },
   stuckLeads.length + stuckPeople.length)

/-! ## jobs/enrichment.rs, db/schema.rs and db/queries.rs: enrichment

LeadEnrichment.revenue is f64 in the source; floating-point is modelled by
the rationals (COALESCE never computes with the value, it only copies
it). -/

structure LeadEnrichment where
  website : Option String
  industry : Option String
  sub_industry : Option String
  employees : Option Int
  employee_range : Option String
  revenue : Option Rat
  revenue_range : Option String
  company_linkedin_url : Option String
  city : Option String
  state : Option String
  country : Option String
deriving DecidableEq

structure PersonEnrichment where
  email : Option String
  title : Option String
  management_level : Option String
  linkedin_url : Option String
  year_joined : Option Int
deriving DecidableEq

/-- SQL COALESCE(column, value): keep the column when it is non-NULL. -/
def coalesce {α : Type} (column value : Option α) : Option α :=
  match column with
  | some x => some x
  | none => value

/-- The leads table row (db/schema.rs Lead / db/mod.rs init_schema). -/
structure Lead where
  id : Int
  company_name : String
  website : Option String
  industry : Option String
  sub_industry : Option String
  employees : Option Int
  employee_range : Option String
  revenue : Option Rat
  revenue_range : Option String
  company_linkedin_url : Option String
  city : Option String
  state : Option String
  country : Option String
  research_status : String
  researched_at : Option Int
  user_status : String
  created_at : Int
  company_profile : Option String
deriving DecidableEq

/-- The people table row (db/schema.rs Person / db/mod.rs init_schema). -/
structure Person where
  id : Int
  lead_id : Option Int
  first_name : String
  last_name : String
  email : Option String
  title : Option String
  management_level : Option String
  linkedin_url : Option String
  year_joined : Option Int
  person_profile : Option String
  research_status : String
  researched_at : Option Int
  user_status : String
  conversation_topics : Option String
  conversation_generated_at : Option Int
  created_at : Int
deriving DecidableEq

/-- The SET list of enrich_lead (db/queries.rs): one COALESCE per
enrichment column. -/
def enrichLeadRow (e : LeadEnrichment) (l : Lead) : Lead :=
  { l with
    website := coalesce l.website e.website,
    industry := coalesce l.industry e.industry,
    sub_industry := coalesce l.sub_industry e.sub_industry,
    employees := coalesce l.employees e.employees,
    employee_range := coalesce l.employee_range e.employee_range,
    revenue := coalesce l.revenue e.revenue,
    revenue_range := coalesce l.revenue_range e.revenue_range,
    company_linkedin_url := coalesce l.company_linkedin_url e.company_linkedin_url,
    city := coalesce l.city e.city,
    state := coalesce l.state e.state,
    country := coalesce l.country e.country }

/-- enrich_lead (db/queries.rs): UPDATE leads SET ...COALESCE... WHERE id. -/
def enrich_lead (leads : List Lead) (leadId : Int) (e : LeadEnrichment) : List Lead :=
  leads.map (fun l => if l.id = leadId then enrichLeadRow e l else l)

/-- The SET list of enrich_person (db/queries.rs). -/
def enrichPersonRow (e : PersonEnrichment) (p : Person) : Person :=
  { p with
    email := coalesce p.email e.email,
    title := coalesce p.title e.title,
    management_level := coalesce p.management_level e.management_level,
    linkedin_url := coalesce p.linkedin_url e.linkedin_url,
    year_joined := coalesce p.year_joined e.year_joined }

/-- enrich_person (db/queries.rs): UPDATE people SET ...COALESCE... WHERE id. -/
def enrich_person (people : List Person) (personId : Int) (e : PersonEnrichment) :
    List Person :=
  people.map (fun p => if p.id = personId then enrichPersonRow e p else p)

/-! ## jobs/completion_handler.rs: the completion phase machine

The staged completion_handler.rs drives four job kinds through its
matches (the CompanyProfileResearch kind of later snapshots has no arm
there); JobType below carries exactly those four. File contents live in
an explicit record of the three output paths named by the job metadata;
a path whose file is missing is absent, one whose read fails is
unreadable. SQLite errors of individual UPDATE/INSERT statements are not
modelled (a list transformation is total); the one database error path
with a modelled trigger is the missing active scoring configuration.
Error payloads (paths, messages) are elided from CompletionError. -/

inductive JobType where
  | companyResearch
  | personResearch
  | scoring
  | conversation
deriving DecidableEq

inductive CompletionPhase where
  | started
  | filesVerified
  | contentParsed
  | databaseUpdated
  | filesCleanedUp
  | completed
  | failed
deriving DecidableEq

inductive CompletionError where
  | fileNotFound
  | fileReadError
  | parseError
  | databaseError
  | validationError
deriving DecidableEq

inductive FileState where
  | absent
  | unreadable
  | content (text : String)
deriving DecidableEq

/-- The files at the three output paths of a job. -/
structure OutputFiles where
  primary : FileState
  secondary : FileState
  enrichment : FileState
deriving DecidableEq

/-- JobMetadata (result_parser.rs) as the completion handler consumes it:
the kind, the target entity, the tenant, and whether the optional output
paths are configured. -/
structure CompletionMetadata where
  job_type : JobType
  entity_id : Int
  clerk_org_id : Option String
  hasSecondaryPath : Bool
  hasEnrichmentPath : Bool
deriving DecidableEq

structure VerifiedOutputs where
  primary_content : String
  secondary_content : Option String
  enrichment_content : Option String
deriving DecidableEq

inductive ParsedOutput where
  | companyResearch (profile : String) (people : Option (List Json))
      (enrichment : Option LeadEnrichment)
  | personResearch (profile : String) (enrichment : Option PersonEnrichment)
  | scoring (score_data : Json)
  | conversation (topics : String)

/-- serde field decoding for an optional string column: absent or null is
None, a string is Some, any other value is a deserialisation error. -/
def jFieldOptStr (j : Json) (k : String) : Option (Option String) :=
  match jGet j k with
  | none => some none
  | some .null => some none
  | some (.str s) => some (some s)
  | some _ => none

def jFieldOptInt (j : Json) (k : String) : Option (Option Int) :=
  match jGet j k with
  | none => some none
  | some .null => some none
  | some (.num n) => some (some n)
  | some _ => none

def jFieldOptRat (j : Json) (k : String) : Option (Option Rat) :=
  match jGet j k with
  | none => some none
  | some .null => some none
  | some (.num n) => some (some (n : Rat))
  | some _ => none

/-- serde_json::from_str::<LeadEnrichment> after parsing: a camelCase
object with every field optional. -/
def decodeLeadEnrichment (j : Json) : Option LeadEnrichment :=
  match j with
  | .obj _ => do
    let website ← jFieldOptStr j "website"
    let industry ← jFieldOptStr j "industry"
    let subIndustry ← jFieldOptStr j "subIndustry"
    let employees ← jFieldOptInt j "employees"
    let employeeRange ← jFieldOptStr j "employeeRange"
    let revenue ← jFieldOptRat j "revenue"
    let revenueRange ← jFieldOptStr j "revenueRange"
    let companyLinkedinUrl ← jFieldOptStr j "companyLinkedinUrl"
    let city ← jFieldOptStr j "city"
    let state ← jFieldOptStr j "state"
    let country ← jFieldOptStr j "country"
    pure { website := website, industry := industry, sub_industry := subIndustry,
           employees := employees, employee_range := employeeRange,
           revenue := revenue, revenue_range := revenueRange,
           company_linkedin_url := companyLinkedinUrl, city := city,
           state := state, country := country }
  | _ => none

/-- serde_json::from_str::<PersonEnrichment> after parsing. -/
def decodePersonEnrichment (j : Json) : Option PersonEnrichment :=
  match j with
  | .obj _ => do
    let email ← jFieldOptStr j "email"
    let title ← jFieldOptStr j "title"
    let managementLevel ← jFieldOptStr j "managementLevel"
    let linkedinUrl ← jFieldOptStr j "linkedinUrl"
    let yearJoined ← jFieldOptInt j "yearJoined"
    pure { email := email, title := title, management_level := managementLevel,
           linkedin_url := linkedinUrl, year_joined := yearJoined }
  | _ => none

/-- verify_output_files (completion_handler.rs): the primary file must
exist, be readable and hold non-blank content; a configured secondary
path is read when present and its read error propagates; a configured
enrichment path is read best-effort (a read error degrades to None). -/
def verify_output_files (md : CompletionMetadata) (fs : OutputFiles) :
    Except CompletionError VerifiedOutputs :=
  match fs.primary with
  | .absent => .error .fileNotFound
  | .unreadable => .error .fileReadError
  | .content primary =>
    if (trimAscii primary.data).isEmpty then .error .validationError
    else
      match
        (if md.hasSecondaryPath then
          match fs.secondary with
          | .absent => Except.ok none
          | .unreadable => Except.error CompletionError.fileReadError
          | .content s => Except.ok (some s)
        else Except.ok none : Except CompletionError (Option String)) with
      | .error e => .error e
      | .ok secondary =>
        let enrichment :=
          if md.hasEnrichmentPath then
            match fs.enrichment with
            | .content s => some s
            | _ => none
          else none
        .ok { primary_content := primary, secondary_content := secondary,
              enrichment_content := enrichment }

/-- parse_output_content (completion_handler.rs): by job kind; people and
enrichment parse failures degrade to None with a warning; Scoring
requires valid JSON with a passesRequirements field. -/
def parse_output_content (outs : VerifiedOutputs) (md : CompletionMetadata) :
    Except CompletionError ParsedOutput :=
  match md.job_type with
  | .companyResearch =>
    let people :=
      match outs.secondary_content with
      | some peopleJson =>
        match parseJson peopleJson with
        | some (.arr xs) => some xs
        | _ => none
      | none => none
    let enrichment :=
      match outs.enrichment_content with
      | some enrichmentJson => (parseJson enrichmentJson).bind decodeLeadEnrichment
      | none => none
    .ok (.companyResearch outs.primary_content people enrichment)
  | .personResearch =>
    let enrichment :=
      match outs.enrichment_content with
      | some enrichmentJson => (parseJson enrichmentJson).bind decodePersonEnrichment
      | none => none
    .ok (.personResearch outs.primary_content enrichment)
  | .scoring =>
    match parseJson outs.primary_content with
    | none => .error .parseError
    | some scoreData =>
      if (jGet scoreData "passesRequirements").isNone then .error .validationError
      else .ok (.scoring scoreData)
  | .conversation => .ok (.conversation outs.primary_content)

/-! ## jobs/completion_handler.rs: the transactional database update -/

/-- The org guard appearing in every statement of the handler: with no
tenant the WHERE clause has no org condition; with a tenant the row must
carry no org or the same org. -/
def orgMatch (org rowOrg : Option String) : Bool :=
  match org with
  | none => true
  | some o => rowOrg = none || rowOrg = some o

/-- The leads table as the completion handler sees it: the schema columns
plus the clerk_org_id column its statements guard on. -/
structure DLead where
  id : Int
  clerk_org_id : Option String
  research_status : String
  company_profile : Option String
  researched_at : Option Int
  website : Option String
  industry : Option String
  sub_industry : Option String
  employees : Option Int
  employee_range : Option String
  revenue : Option Rat
  revenue_range : Option String
  company_linkedin_url : Option String
  city : Option String
  state : Option String
  country : Option String
deriving DecidableEq

/-- The people table as the completion handler sees it. Rows inserted by
the handler get id 0: the AUTOINCREMENT id is not modelled and no
property below depends on row ids of inserted people. -/
structure DPerson where
  id : Int
  clerk_org_id : Option String
  lead_id : Option Int
  first_name : String
  last_name : String
  email : Option String
  title : Option String
  management_level : Option String
  linkedin_url : Option String
  year_joined : Option Int
  person_profile : Option String
  research_status : String
  researched_at : Option Int
  user_status : String
  conversation_topics : Option String
  conversation_generated_at : Option Int
  created_at : Int
deriving DecidableEq

structure DScore where
  lead_id : Int
  config_id : Int
  passes_requirements : Bool
  requirement_results : String
  total_score : Int
  score_breakdown : String
  tier : String
  scoring_notes : Option String
  scored_at : Int
  created_at : Int
  clerk_org_id : Option String
deriving DecidableEq

/-- The scoring_config columns the handler reads (the full row is decoded
in the source; only id is consumed by the insert). -/
structure DConfig where
  id : Int
  is_active : Bool
  clerk_org_id : Option String
deriving DecidableEq

/-- The domain tables the completion handler mutates. -/
structure DomainDb where
  leads : List DLead
  people : List DPerson
  lead_scores : List DScore
  scoring_config : List DConfig
deriving DecidableEq

/-- Compact serialisation, modelling Value::to_string for the values this
development builds (the source stores the rendered requirementResults and
scoreBreakdown strings). -/
def jsonRenderString (s : String) : String :=
  "\"" ++ String.mk (s.data.foldr (fun c out =>
    if c = '"' then '\\' :: '"' :: out
    else if c = '\\' then '\\' :: '\\' :: out
    else if c = '\n' then '\\' :: 'n' :: out
    else if c = '\t' then '\\' :: 't' :: out
    else if c = '\r' then '\\' :: 'r' :: out
    else c :: out) []) ++ "\""

mutual

def jsonRender : Json → String
  | .null => "null"
  | .bool true => "true"
  | .bool false => "false"
  | .num n => toString n
  | .str s => jsonRenderString s
  | .arr xs => "[" ++ String.intercalate "," (jsonRenderList xs) ++ "]"
  | .obj fs => "\x7b" ++ String.intercalate "," (jsonRenderFields fs) ++ "\x7d"

def jsonRenderList : List Json → List String
  | [] => []
  | x :: xs => jsonRender x :: jsonRenderList xs

def jsonRenderFields : List (String × Json) → List String
  | [] => []
  | (k, v) :: fs => (jsonRenderString k ++ ":" ++ jsonRender v) :: jsonRenderFields fs

end

/-- extract_first_name (completion_handler.rs). -/
def splitOnWhitespace (s : String) : List String :=
  (s.split (fun c => c.isWhitespace)).filter (fun t => !t.isEmpty)

def extract_first_name (p : Json) : String :=
  match (jGet p "firstName").bind jStr? with
  | some v => v
  | none =>
    match (jGet p "name").bind jStr? with
    | some name => ((splitOnWhitespace name).head?).getD "Unknown"
    | none => "Unknown"

/-- extract_last_name (completion_handler.rs). -/
def extract_last_name (p : Json) : String :=
  match (jGet p "lastName").bind jStr? with
  | some v => v
  | none =>
    match (jGet p "name").bind jStr? with
    | some name => String.intercalate " " ((splitOnWhitespace name).drop 1)
    | none => ""

/-- The people row the CompanyResearch arm inserts for one JSON person. -/
def personRowOfJson (now : Int) (org : Option String) (leadId : Int)
    (p : Json) : DPerson :=
  { id := 0, clerk_org_id := org, lead_id := some leadId,
    first_name := extract_first_name p, last_name := extract_last_name p,
    email := (jGet p "email").bind jStr?,
    title := (jGet p "title").bind jStr?,
    linkedin_url := (jGet p "linkedinUrl").bind jStr?,
    management_level := (jGet p "managementLevel").bind jStr?,
    year_joined := (jGet p "yearJoined").bind jInt?,
    person_profile := none, research_status := "pending", researched_at := none,
    user_status := "new", conversation_topics := none,
    conversation_generated_at := none, created_at := now }

/-- The org-aware enrich_lead the handler calls inside its transaction:
the COALESCE update of db/queries.rs with the org guard every handler
statement carries. -/
def enrichDLeadRow (e : LeadEnrichment) (l : DLead) : DLead :=
  { l with
    website := coalesce l.website e.website,
    industry := coalesce l.industry e.industry,
    sub_industry := coalesce l.sub_industry e.sub_industry,
    employees := coalesce l.employees e.employees,
    employee_range := coalesce l.employee_range e.employee_range,
    revenue := coalesce l.revenue e.revenue,
    revenue_range := coalesce l.revenue_range e.revenue_range,
    company_linkedin_url := coalesce l.company_linkedin_url e.company_linkedin_url,
    city := coalesce l.city e.city,
    state := coalesce l.state e.state,
    country := coalesce l.country e.country }

def enrichLeadTx (leadId : Int) (e : LeadEnrichment) (org : Option String)
    (leads : List DLead) : List DLead :=
  leads.map (fun l =>
    if decide (l.id = leadId) && orgMatch org l.clerk_org_id then
      enrichDLeadRow e l else l)

def enrichDPersonRow (e : PersonEnrichment) (p : DPerson) : DPerson :=
  { p with
    email := coalesce p.email e.email,
    title := coalesce p.title e.title,
    management_level := coalesce p.management_level e.management_level,
    linkedin_url := coalesce p.linkedin_url e.linkedin_url,
    year_joined := coalesce p.year_joined e.year_joined }

def enrichPersonTx (personId : Int) (e : PersonEnrichment) (org : Option String)
    (people : List DPerson) : List DPerson :=
  people.map (fun p =>
    if decide (p.id = personId) && orgMatch org p.clerk_org_id then
      enrichDPersonRow e p else p)

/-- SELECT ... FROM scoring_config WHERE is_active = 1 AND org guard
ORDER BY id DESC LIMIT 1: the matching row with the greatest id. -/
def activeScoringConfig (cfgs : List DConfig) (org : Option String) : Option DConfig :=
  (cfgs.filter (fun c => c.is_active && orgMatch org c.clerk_org_id)).foldl
    (fun best c =>
      match best with
      | none => some c
      | some b => if b.id < c.id then some c else some b) none

/-- update_database_in_tx (completion_handler.rs): the domain mutations of
one job, by kind. -/
def update_database_in_tx (now : Int) (parsed : ParsedOutput)
    (md : CompletionMetadata) (db : DomainDb) : Except CompletionError DomainDb :=
  let org := md.clerk_org_id
  match parsed with
  | .companyResearch profile people enrichment =>
    let leadId := md.entity_id
    let people1 :=
      match people with
      | some peopleData =>
        (db.people.filter (fun p =>
          !(decide (p.lead_id = some leadId) && orgMatch org p.clerk_org_id)))
          ++ peopleData.map (personRowOfJson now org leadId)
      | none => db.people
    let leads1 := db.leads.map (fun l =>
      if decide (l.id = leadId) && orgMatch org l.clerk_org_id then
        { l with research_status := "completed", company_profile := some profile,
                 researched_at := some now }
      else l)
    let leads2 :=
      match enrichment with
      | some e => enrichLeadTx leadId e org leads1
      | none => leads1
    .ok { db with people := people1, leads := leads2 }
  | .personResearch profile enrichment =>
    let personId := md.entity_id
    let people1 := db.people.map (fun p =>
      if decide (p.id = personId) && orgMatch org p.clerk_org_id then
        { p with research_status := "completed", person_profile := some profile,
                 researched_at := some now }
      else p)
    let people2 :=
      match enrichment with
      | some e => enrichPersonTx personId e org people1
      | none => people1
    .ok { db with people := people2 }
  | .scoring scoreData =>
    let leadId := md.entity_id
    match activeScoringConfig db.scoring_config org with
    | none => .error .validationError
    | some config =>
      let passes := ((jGet scoreData "passesRequirements").bind jBool?).getD false
      let requirementResults :=
        ((jGet scoreData "requirementResults").map jsonRender).getD "[]"
      let totalScore := ((jGet scoreData "totalScore").bind jInt?).getD 0
      let scoreBreakdown :=
        ((jGet scoreData "scoreBreakdown").map jsonRender).getD "[]"
      let tier := ((jGet scoreData "tier").bind jStr?).getD "disqualified"
      let notes := (jGet scoreData "scoringNotes").bind jStr?
      let remaining := db.lead_scores.filter (fun srow =>
        !(decide (srow.lead_id = leadId) && orgMatch org srow.clerk_org_id))
      .ok { db with lead_scores := remaining ++
        [{ lead_id := leadId, config_id := config.id, passes_requirements := passes,
           requirement_results := requirementResults, total_score := totalScore,
           score_breakdown := scoreBreakdown, tier := tier, scoring_notes := notes,
           scored_at := now, created_at := now, clerk_org_id := org }] }
  | .conversation topics =>
    let personId := md.entity_id
    .ok { db with people := db.people.map (fun p =>
      if decide (p.id = personId) && orgMatch org p.clerk_org_id then
        { p with conversation_topics := some topics,
                 conversation_generated_at := some now }
      else p) }

/-- update_database (completion_handler.rs): run update_database_in_tx
inside one transaction; Ok commits the new state, Err drops it and the
caller keeps the old state. -/
def update_database (now : Int) (parsed : ParsedOutput) (md : CompletionMetadata)
    (db : DomainDb) : Except CompletionError DomainDb :=
  match update_database_in_tx now parsed md db with
  | .ok db2 => .ok db2
  | .error e => .error e

/-- mark_entity_failed (completion_handler.rs). -/
def mark_entity_failed (md : CompletionMetadata) (db : DomainDb) : DomainDb :=
  let org := md.clerk_org_id
  match md.job_type with
  | .companyResearch =>
    { db with leads := db.leads.map (fun l =>
        if decide (l.id = md.entity_id) && orgMatch org l.clerk_org_id then
          { l with research_status := "failed" } else l) }
  | .personResearch =>
    { db with people := db.people.map (fun p =>
        if decide (p.id = md.entity_id) && orgMatch org p.clerk_org_id then
          { p with research_status := "failed" } else p) }
  | .scoring => db
  | .conversation => db

/-- cleanup_files (completion_handler.rs): for the research kinds the
whole per-entity output directory (holding all three files) is removed;
for the other kinds the primary file alone (when it exists). The
fs::remove_dir_all / fs::remove_file calls can fail; the source logs such
a failure and swallows it, returning Ok with the files still on disk.
removeOk is the outcome of that operating-system removal: on false the
file state is unchanged. -/
def cleanup_files (removeOk : Bool) (md : CompletionMetadata)
    (fs : OutputFiles) : OutputFiles :=
  if md.job_type = .companyResearch || md.job_type = .personResearch then
    if removeOk then
      { primary := .absent, secondary := .absent, enrichment := .absent }
    else fs
  else
    match fs.primary with
    | .absent => fs
    | _ => if removeOk then { fs with primary := .absent } else fs

/-- The state process_completion acts on: the domain tables, the output
files, and the completion_state column of the job row. -/
structure CompletionState where
  domain : DomainDb
  files : OutputFiles
  phase : Option CompletionPhase

/-- process_completion (completion_handler.rs): the six-phase machine.
Each phase is recorded before the next begins; a failed job (success =
false) short-circuits to phase failed after marking the entity; an Err
from verify, parse or the database update returns with the phase last
recorded and, for the database update, the transaction dropped. removeOk
is the outcome of the swallowed file removal in the cleanup phase: that
phase advances and the run still returns Ok either way. -/
def process_completion (now : Int) (removeOk : Bool) (success : Bool)
    (md : CompletionMetadata) (st : CompletionState) :
    Except CompletionError Unit × CompletionState :=
  let st1 := { st with phase := some .started }
  if !success then
    (.ok (), { st1 with domain := mark_entity_failed md st1.domain,
                        phase := some .failed })
  else
    match verify_output_files md st1.files with
    | .error e => (.error e, st1)
    | .ok outs =>
      let st2 := { st1 with phase := some .filesVerified }
      match parse_output_content outs md with
      | .error e => (.error e, st2)
      | .ok parsed =>
        let st3 := { st2 with phase := some .contentParsed }
        match update_database now parsed md st3.domain with
        | .error e => (.error e, st3)
        | .ok db2 =>
          let st4 := { st3 with domain := db2, phase := some .databaseUpdated }
          let st5 := { st4 with files := cleanup_files removeOk md st4.files,
                                phase := some .filesCleanedUp }
          (.ok (), { st5 with phase := some .completed })

/-! ## Supporting lemmas -/

theorem process_line_acc_accLen (l : Nat) (st : StreamAccState) :
    (process_line_acc l st).accLen =
      if st.accLen < MAX_ACCUMULATED_OUTPUT_SIZE then st.accLen + l + 1 else st.accLen := by
  simp only [process_line_acc]
  split_ifs with h1 h2 <;> rfl

theorem process_line_acc_truncated (l : Nat) (st : StreamAccState) :
    (process_line_acc l st).truncated =
      (st.truncated || decide (MAX_ACCUMULATED_OUTPUT_SIZE ≤ st.accLen)) := by
  simp only [process_line_acc]
  split_ifs with h1 h2 <;> simp_all [Nat.not_lt, Nat.not_le]

theorem processStream_accLen_le (lines : List Nat) (st : StreamAccState) :
    (processStream lines st).accLen ≤
      max st.accLen (MAX_ACCUMULATED_OUTPUT_SIZE + maxLineLen lines) := by
  induction lines generalizing st with
  | nil => simp [processStream]
  | cons l ls ih =>
    simp only [processStream]
    refine le_trans (ih (process_line_acc l st)) ?_
    rw [process_line_acc_accLen]
    have hfold : maxLineLen (l :: ls) = max l (maxLineLen ls) := rfl
    have hl : l ≤ maxLineLen (l :: ls) := hfold ▸ le_max_left _ _
    have hls : maxLineLen ls ≤ maxLineLen (l :: ls) := hfold ▸ le_max_right _ _
    by_cases hlt : st.accLen < MAX_ACCUMULATED_OUTPUT_SIZE
    · simp only [hlt, if_true]
      apply max_le
      · apply le_max_of_le_right
        omega
      · apply le_max_of_le_right
        omega
    · simp only [hlt, if_false]
      exact max_le_max le_rfl (by omega)

theorem processStream_truncated_iff (lines : List Nat) (st : StreamAccState) :
    (processStream lines st).truncated = true ↔
      st.truncated = true ∨ ∃ pre l post, lines = pre ++ l :: post ∧
        MAX_ACCUMULATED_OUTPUT_SIZE ≤ (processStream pre st).accLen := by
  induction lines generalizing st with
  | nil =>
    simp only [processStream]
    constructor
    · intro h; exact Or.inl h
    · rintro (h | ⟨pre, l, post, heq, _⟩)
      · exact h
      · exact absurd heq (by simp)
  | cons l ls ih =>
    simp only [processStream]
    rw [ih]
    rw [process_line_acc_truncated]
    constructor
    · rintro (h | ⟨pre, l2, post, heq, hge⟩)
      · rcases Bool.or_eq_true _ _ |>.mp h with h1 | h1
        · exact Or.inl h1
        · refine Or.inr ⟨[], l, ls, rfl, ?_⟩
          simpa [processStream] using of_decide_eq_true h1
      · refine Or.inr ⟨l :: pre, l2, post, by simp [heq], ?_⟩
        simpa [processStream] using hge
    · rintro (h | ⟨pre, l2, post, heq, hge⟩)
      · exact Or.inl (by simp [h])
      · cases pre with
        | nil =>
          simp only [List.nil_append] at heq
          obtain ⟨rfl, rfl⟩ : l2 = l ∧ post = ls := by
            injection heq with h1 h2; exact ⟨h1.symm, h2.symm⟩
          left
          simp only [processStream] at hge
          simp [hge]
        | cons a pre2 =>
          simp only [List.cons_append] at heq
          obtain ⟨rfl, hls⟩ : a = l ∧ ls = pre2 ++ l2 :: post := by
            injection heq with h1 h2; exact ⟨h1.symm, h2⟩
          right
          refine ⟨pre2, l2, post, hls, ?_⟩
          simpa [processStream] using hge

theorem parseVal_obj_mem (f : Nat) (cs : List Char) (m : List (String × Json))
    (rest : List Char) (h : parseVal f cs = some (Json.obj m, rest)) : '{' ∈ cs := by
  cases f with
  | zero => simp [parseVal] at h
  | succ n =>
    cases hs : skipWs cs with
    | nil => simp [parseVal, hs] at h
    | cons c rest0 =>
      simp only [parseVal, hs] at h
      by_cases hc : c = '{'
      · have hmem : ('{' : Char) ∈ skipWs cs := by
          rw [hs]
          exact hc ▸ List.mem_cons_self c rest0
        exact List.Sublist.mem hmem (List.dropWhile_sublist _)
      · exfalso
        rw [if_neg hc] at h
        repeat' split at h
        all_goals simp_all

theorem parseJson_obj_mem (s : String) (m : List (String × Json))
    (h : parseJson s = some (Json.obj m)) : '{' ∈ s.data := by
  unfold parseJson at h
  cases hv : parseVal (4 * (s.data.length + 1)) s.data with
  | none => rw [hv] at h; simp at h
  | some pr =>
    obtain ⟨j, rest⟩ := pr
    rw [hv] at h
    by_cases he : (skipWs rest).isEmpty
    · simp only [he, if_true] at h
      obtain rfl : j = Json.obj m := by injection h
      exact parseVal_obj_mem _ _ _ _ hv
    · simp [he] at h

theorem findCharIdx_eq_none (c : Char) (cs : List Char) (h : c ∉ cs) :
    findCharIdx c cs = none := by
  unfold findCharIdx
  rw [List.findIdx?_eq_none_iff]
  intro x hx
  simp only [decide_eq_false_iff_not]
  intro hxc
  exact h (hxc ▸ hx)

theorem foldl_update_by_row {α β κ : Type} [DecidableEq κ] (key : α → κ)
    (pick : β → κ) (upd : α → α) (hkey : ∀ a, key (upd a) = key a)
    (hidem : ∀ a, upd (upd a) = upd a) (js : List β) (xs : List α) :
    js.foldl (fun acc j => acc.map (fun a => if key a = pick j then upd a else a)) xs
      = xs.map (fun a =>
          if js.any (fun j => decide (key a = pick j)) then upd a else a) := by
  induction js generalizing xs with
  | nil => simp
  | cons j js ih =>
    simp only [List.foldl_cons]
    rw [ih, List.map_map]
    refine List.map_congr_left ?_
    intro a _
    by_cases hk : key a = pick j <;>
      simp [Function.comp, hk, hkey, hidem, List.any_cons]

theorem recover_stale_jobs_jobs_eq (now : Int) (db : RecDb) :
    ((recover_stale_jobs now db).1).jobs =
      db.jobs.map (fun r =>
        if (detect_stale_jobs now db).any (fun j => decide (r.id = j.id))
        then markJobRecovered now r else r) := by
  simp only [recover_stale_jobs]
  rw [foldl_update_by_row JobRow.id JobRow.id (markJobRecovered now)
    (fun a => rfl) (fun a => rfl)]

theorem recover_stuck_entities_jobs_eq (db : RecDb) :
    ((recover_stuck_entities db).1).jobs = db.jobs := rfl

theorem recover_stuck_entities_leads_eq (db : RecDb) :
    ((recover_stuck_entities db).1).leads =
      db.leads.map (fun l =>
        if (detect_stuck_leads db).any (fun s => decide (l.id = s.id))
        then { l with research_status := "pending" } else l) := by
  simp only [recover_stuck_entities]
  rw [foldl_update_by_row RecLeadRow.id RecLeadRow.id
    (fun l => { l with research_status := "pending" }) (fun a => rfl) (fun a => rfl)]

theorem recover_stuck_entities_people_eq (db : RecDb) :
    ((recover_stuck_entities db).1).people =
      db.people.map (fun p =>
        if (detect_stuck_people db).any (fun s => decide (p.id = s.id))
        then { p with research_status := "pending" } else p) := by
  simp only [recover_stuck_entities]
  rw [foldl_update_by_row RecPersonRow.id RecPersonRow.id
    (fun p => { p with research_status := "pending" }) (fun a => rfl) (fun a => rfl)]

theorem detect_stale_jobs_after_sweeps (now : Int) (db : RecDb) :
    detect_stale_jobs now
      ((recover_stuck_entities ((recover_stale_jobs now db).1)).1) = [] := by
  unfold detect_stale_jobs
  rw [recover_stuck_entities_jobs_eq, recover_stale_jobs_jobs_eq]
  rw [List.filter_eq_nil_iff]
  intro x hx
  rcases List.mem_map.mp hx with ⟨r, hr, rfl⟩
  by_cases hcond :
      ((detect_stale_jobs now db).any (fun j => decide (r.id = j.id))) = true
  · simp [hcond, markJobRecovered, staleJobPred]
  · simp only [hcond, if_false, Bool.false_eq_true]
    intro hP
    have hmem : r ∈ detect_stale_jobs now db :=
      List.mem_filter.mpr ⟨hr, hP⟩
    exact hcond (List.any_eq_true.mpr ⟨r, hmem, by simp⟩)

theorem detect_stuck_leads_after_sweeps (now : Int) (db : RecDb) :
    detect_stuck_leads
      ((recover_stuck_entities ((recover_stale_jobs now db).1)).1) = [] := by
  unfold detect_stuck_leads
  rw [recover_stuck_entities_jobs_eq, recover_stuck_entities_leads_eq]
  rw [List.filter_eq_nil_iff]
  intro x hx
  rcases List.mem_map.mp hx with ⟨l, hl, rfl⟩
  by_cases hcond :
      ((detect_stuck_leads ((recover_stale_jobs now db).1)).any
        (fun s => decide (l.id = s.id))) = true
  · simp [hcond]
  · simp only [hcond, if_false, Bool.false_eq_true]
    intro hP
    rcases Bool.and_eq_true _ _ |>.mp hP with ⟨hst, hact⟩
    have hmem : l ∈ detect_stuck_leads ((recover_stale_jobs now db).1) := by
      unfold detect_stuck_leads
      exact List.mem_filter.mpr ⟨hl, by
        rw [Bool.and_eq_true]
        exact ⟨hst, hact⟩⟩
    exact hcond (List.any_eq_true.mpr ⟨l, hmem, by simp⟩)

theorem detect_stuck_people_after_sweeps (now : Int) (db : RecDb) :
    detect_stuck_people
      ((recover_stuck_entities ((recover_stale_jobs now db).1)).1) = [] := by
  unfold detect_stuck_people
  rw [recover_stuck_entities_jobs_eq, recover_stuck_entities_people_eq]
  rw [List.filter_eq_nil_iff]
  intro x hx
  rcases List.mem_map.mp hx with ⟨p, hp, rfl⟩
  by_cases hcond :
      ((detect_stuck_people ((recover_stale_jobs now db).1)).any
        (fun s => decide (p.id = s.id))) = true
  · simp [hcond]
  · simp only [hcond, if_false, Bool.false_eq_true]
    intro hP
    rcases Bool.and_eq_true _ _ |>.mp hP with ⟨hst, hact⟩
    have hmem : p ∈ detect_stuck_people ((recover_stale_jobs now db).1) := by
      unfold detect_stuck_people
      exact List.mem_filter.mpr ⟨hp, by
        rw [Bool.and_eq_true]
        exact ⟨hst, hact⟩⟩
    exact hcond (List.any_eq_true.mpr ⟨p, hmem, by simp⟩)

/-! ## The claims -/

/-- Claim C1 counterexample: a successful Conversation job whose swallowed
file removal fails ends with phase completed and the run returning Ok
while the primary output file is still present, refuting the claimed
Ok-branch conjunct that the output files are removed. -/
theorem c1_cleanup_failure_counterexample :
    process_completion 0 false true
        { job_type := JobType.conversation, entity_id := 1, clerk_org_id := none,
          hasSecondaryPath := false, hasEnrichmentPath := false }
        { domain := { leads := [], people := [], lead_scores := [],
                      scoring_config := [] },
          files := { primary := FileState.content "topics",
                     secondary := FileState.absent,
                     enrichment := FileState.absent },
          phase := none } =
      (Except.ok (),
        { domain := { leads := [], people := [], lead_scores := [],
                      scoring_config := [] },
          files := { primary := FileState.content "topics",
                     secondary := FileState.absent,
                     enrichment := FileState.absent },
          phase := some CompletionPhase.completed }) ∧
    FileState.content "topics" ≠ FileState.absent := by
  constructor
  · rfl
  · intro h
    cases h

/-- Claim C1 (amended): for a job whose completion context has success =
true, process_completion either returns Ok with completion phase
completed, the domain updated exactly by the one transactional update,
and the output files in the state the cleanup phase leaves them — absent
whenever the swallowed operating-system removal succeeds, possibly still
present when it fails — or returns Err with the phase one of started,
files_verified or content_parsed, the domain tables unchanged and the
output files untouched. -/
theorem c1_completion_atomicity_amended :
    ∀ (now : Int) (removeOk : Bool) (md : CompletionMetadata) (db : DomainDb)
      (fs : OutputFiles) (ph : Option CompletionPhase),
      (∃ outs parsed db2,
          verify_output_files md fs = .ok outs ∧
          parse_output_content outs md = .ok parsed ∧
          update_database_in_tx now parsed md db = .ok db2 ∧
          process_completion now removeOk true md ⟨db, fs, ph⟩ =
            (.ok (), ⟨db2, cleanup_files removeOk md fs, some .completed⟩) ∧
          (removeOk = true →
            (cleanup_files removeOk md fs).primary = FileState.absent)) ∨
      (∃ e st2,
          process_completion now removeOk true md ⟨db, fs, ph⟩ = (.error e, st2) ∧
          (st2.phase = some .started ∨ st2.phase = some .filesVerified ∨
            st2.phase = some .contentParsed) ∧
          st2.domain = db ∧ st2.files = fs) := by
  intro now removeOk md db fs ph
  cases hv : verify_output_files md fs with
  | error e =>
    right
    refine ⟨e, ⟨db, fs, some CompletionPhase.started⟩, ?_, Or.inl rfl, rfl, rfl⟩
    simp [process_completion, hv]
  | ok outs =>
    cases hp : parse_output_content outs md with
    | error e =>
      right
      refine ⟨e, ⟨db, fs, some CompletionPhase.filesVerified⟩, ?_,
        Or.inr (Or.inl rfl), rfl, rfl⟩
      simp [process_completion, hv, hp]
    | ok parsed =>
      cases hu : update_database_in_tx now parsed md db with
      | error e =>
        right
        refine ⟨e, ⟨db, fs, some CompletionPhase.contentParsed⟩, ?_,
          Or.inr (Or.inr rfl), rfl, rfl⟩
        simp [process_completion, update_database, hv, hp, hu]
      | ok db2 =>
        left
        refine ⟨outs, parsed, db2, rfl, hp, hu, ?_, ?_⟩
        · simp [process_completion, update_database, hv, hp, hu]
        · intro hro
          subst hro
          simp only [cleanup_files, if_true]
          split
          · rfl
          · split
            · assumption
            · rfl

/-- Claim C2 counterexample: along the reachable path where the child exits
with code 0 and the completion handler then fails, the scheduler writes
queued, running, completed, error to the job row — a later write changes a
terminal status, refuting the claimed monotonicity. -/
theorem c2_terminal_overwrite_counterexample :
    statusWrites QueueOutcome.permitAcquired true (RunOutcome.exited 0) true =
      ["queued", "running", "completed", "error"] ∧
    ¬ List.Chain' terminalFinalStep
        (statusWrites QueueOutcome.permitAcquired true (RunOutcome.exited 0) true) := by
  refine ⟨rfl, ?_⟩
  intro h
  rw [show statusWrites QueueOutcome.permitAcquired true (RunOutcome.exited 0) true =
    ["queued", "running", "completed", "error"] from rfl] at h
  have h2 := List.chain'_cons.mp (List.chain'_cons.mp h).2
  have h3 := List.chain'_cons.mp h2.2
  exact absurd (h3.1 (by decide)) (by decide)

/-- Claim C2 (amended): every status-write trace of the supervising task is
a chain under queued to running or a terminal status and running to a
terminal status, except that completed may be overwritten by error on the
completion-handler error path; update_job_status itself sets any requested
status unconditionally. -/
theorem c2_status_monotonicity_amended :
    (∀ (q : QueueOutcome) (spawnOk : Bool) (r : RunOutcome) (completionFails : Bool),
        List.Chain' statusStepAmended (statusWrites q spawnOk r completionFails)) ∧
    (∀ (now : Int) (status : String) (exitCode : Option Int)
        (errorMessage : Option String) (row : JobRow),
        (updateJobStatusRow now status exitCode errorMessage row).status = status) := by
  constructor
  · intro q spawnOk r completionFails
    cases q <;> cases spawnOk <;> cases completionFails <;> cases r <;>
      first
      | (rename_i code
         by_cases hc : code = 0 <;>
           simp [statusWrites, runResultStatus, statusStepAmended, isTerminalStatus,
             List.chain'_cons, hc])
      | simp [statusWrites, runResultStatus, statusStepAmended, isTerminalStatus,
          List.chain'_cons]
  · intro now status exitCode errorMessage row
    unfold updateJobStatusRow
    split_ifs <;> rfl

/-- Claim C3 counterexample: replaying a one-entry batch through
insert_job_logs_batch_full duplicates the row — the resulting table
violates (sequence, job_id) uniqueness and differs from the table after the
first insert, refuting idempotence and the claimed unique constraint. -/
theorem c3_duplicate_replay_counterexample :
    ¬ seqJobIdUnique
        (insert_job_logs_batch_full 5
          (insert_job_logs_batch_full 5 []
            [{ job_id := "j", log_type := "info", content := "x", tool_name := none,
               sequence := 0, source := "stdout" }])
          [{ job_id := "j", log_type := "info", content := "x", tool_name := none,
             sequence := 0, source := "stdout" }]) ∧
    insert_job_logs_batch_full 5
        (insert_job_logs_batch_full 5 []
          [{ job_id := "j", log_type := "info", content := "x", tool_name := none,
             sequence := 0, source := "stdout" }])
        [{ job_id := "j", log_type := "info", content := "x", tool_name := none,
           sequence := 0, source := "stdout" }] ≠
      insert_job_logs_batch_full 5 []
        [{ job_id := "j", log_type := "info", content := "x", tool_name := none,
           sequence := 0, source := "stdout" }] := by
  constructor
  · intro h
    simp [seqJobIdUnique, insert_job_logs_batch_full, batchEntryRow] at h
  · decide

/-- Claim C3 (amended): insert_job_logs_batch_full appends unconditionally
(init_schema declares no UNIQUE constraint on (sequence, job_id), only a
plain index), so a replay appends a second copy of the batch and each
replayed entry's (job_id, sequence) pair then occurs at least twice. -/
theorem c3_batch_insert_amended :
    ∀ (now : Int) (tbl : List JobLogRow) (logs : List BatchLogEntry),
      insert_job_logs_batch_full now (insert_job_logs_batch_full now tbl logs) logs =
        tbl ++ logs.map (batchEntryRow now) ++ logs.map (batchEntryRow now) ∧
      ∀ e ∈ logs, 2 ≤ seqJobIdCount
          (insert_job_logs_batch_full now (insert_job_logs_batch_full now tbl logs) logs)
          e.job_id e.sequence := by
  intro now tbl logs
  constructor
  · simp [insert_job_logs_batch_full]
  · intro e he
    have hmem : batchEntryRow now e ∈ logs.map (batchEntryRow now) :=
      List.mem_map_of_mem _ he
    have hpos : 0 < (logs.map (batchEntryRow now)).countP
        (fun r => r.job_id = e.job_id && r.sequence = e.sequence) := by
      refine List.countP_pos_iff.mpr ⟨batchEntryRow now e, hmem, ?_⟩
      simp [batchEntryRow]
    simp only [seqJobIdCount, insert_job_logs_batch_full,
      ← List.countP_eq_length_filter, List.countP_append]
    omega

/-- Claim C4 counterexample: with the database lock unavailable,
flush_buffer persists nothing yet still emits the job-logs-appended
notification for the drained batch, refuting notify-only-after-persist. -/
theorem c4_notify_on_failure_counterexample :
    (flush_buffer "job" false false
        [{ job_id := "job", source := "stdout", log_type := "info", content := "line",
           tool_name := none, sequence := 0 }]).persisted = [] ∧
    (flush_buffer "job" false false
        [{ job_id := "job", source := "stdout", log_type := "info", content := "line",
           tool_name := none, sequence := 0 }]).notified ≠ none ∧
    (flush_buffer "job" false false
        [{ job_id := "job", source := "stdout", log_type := "info", content := "line",
           tool_name := none, sequence := 0 }]).notified =
      some { job_id := "job", count := 1, last_sequence := 0 } := by
  refine ⟨by decide, by decide, by decide⟩

/-- Claim C4 (amended): flush_buffer emits the job-logs-appended
notification exactly when the drained buffer is non-empty, regardless of
lock acquisition or insert success; the drained entries never return to the
buffer, and rows are persisted only when both lock and insert succeed. -/
theorem c4_flush_notification_amended :
    ∀ (jobId : String) (lockOk insertOk : Bool) (buffer : List BufferedLogEntry),
      (flush_buffer jobId lockOk insertOk buffer).notified =
        (if buffer.isEmpty then none
         else some { job_id := jobId, count := (buffer.length : Int),
                     last_sequence := (buffer.getLast?.map (fun e => e.sequence)).getD 0 }) ∧
      (flush_buffer jobId lockOk insertOk buffer).buffer =
        (if buffer.isEmpty then buffer else []) ∧
      ((flush_buffer jobId lockOk insertOk buffer).persisted ≠ [] →
        lockOk = true ∧ insertOk = true ∧
        (flush_buffer jobId lockOk insertOk buffer).persisted = buffer.map to_batch_entry) := by
  intro jobId lockOk insertOk buffer
  by_cases hb : buffer.isEmpty <;> cases lockOk <;> cases insertOk <;>
    simp [flush_buffer, hb]

/-- Claim C5 counterexample: one line of 10485760 bytes is appended whole,
leaving the accumulator above the 10 MB bound while the truncation flag is
still false although the stream exceeded the bound. -/
theorem c5_overflow_counterexample :
    ¬((processStream [10485760] initialStreamAcc).accLen ≤ MAX_ACCUMULATED_OUTPUT_SIZE) ∧
    (processStream [10485760] initialStreamAcc).truncated = false ∧
    MAX_ACCUMULATED_OUTPUT_SIZE < (processStream [10485760] initialStreamAcc).totalBytes := by
  refine ⟨by decide, by decide, by decide⟩

/-- Claim C5 (amended): the accumulator is bounded by 10 MB plus the
largest line (a line is appended whole whenever the accumulator is under
the bound on arrival), and the truncation flag is set iff some line arrived
while the accumulator was already at or above the bound. -/
theorem c5_bounded_accumulation_amended :
    ∀ lines : List Nat,
      (processStream lines initialStreamAcc).accLen ≤
        MAX_ACCUMULATED_OUTPUT_SIZE + maxLineLen lines ∧
      ((processStream lines initialStreamAcc).truncated = true ↔
        ∃ pre l post, lines = pre ++ l :: post ∧
          MAX_ACCUMULATED_OUTPUT_SIZE ≤ (processStream pre initialStreamAcc).accLen) := by
  intro lines
  constructor
  · have h := processStream_accLen_le lines initialStreamAcc
    simpa [initialStreamAcc] using h
  · rw [processStream_truncated_iff]
    simp [initialStreamAcc]

/-- Claim C6 counterexample: a content_block_stop event classifies as info,
not assistant, refuting the claimed rule that every content_block_* type
maps to assistant. -/
theorem c6_content_block_stop_counterexample :
    parseJson "\x7b\"type\":\"content_block_stop\"\x7d" =
      some (Json.obj [("type", Json.str "content_block_stop")]) ∧
    parse_stream_json_type "\x7b\"type\":\"content_block_stop\"\x7d" = ("info", none) ∧
    (parse_stream_json_type "\x7b\"type\":\"content_block_stop\"\x7d").1 ≠ "assistant" := by
  refine ⟨rfl, rfl, by decide⟩

/-- Claim C6 (amended): the classification table, with content_block_start
and content_block_delta mapping to assistant and content_block_stop — like
every other unmatched type — mapping to info; non-JSON lines classify as
info with no tool name. -/
theorem c6_log_type_table_amended :
    (∀ (line : String) (j : Json) (t : String),
        parseJson line = some j →
        (jGet j "type").bind jStr? = some t →
        (parse_stream_json_type line).1 =
          (if t = "system" then "system"
           else if t = "assistant" then "assistant"
           else if t = "user" then "tool_result"
           else if t = "result" then
             (if ((jGet j "is_error").bind jBool?).getD false then "error" else "info")
           else if t = "error" then "error"
           else if t = "content_block_start" || t = "content_block_delta" then "assistant"
           else "info")) ∧
    (∀ line : String, parseJson line = none →
        parse_stream_json_type line = ("info", none)) := by
  constructor
  · intro line j t h1 h2
    simp [parse_stream_json_type, h1, h2]
  · intro line h
    simp [parse_stream_json_type, h]

/-- Witness for the amended C6 table at a concrete system event. -/
theorem c6_log_type_table_amended_witness :
    (parse_stream_json_type "\x7b\"type\":\"system\"\x7d").1 = "system" := by
  have := c6_log_type_table_amended.1 "\x7b\"type\":\"system\"\x7d"
    (Json.obj [("type", Json.str "system")]) "system" rfl rfl
  simpa using this

/-- Claim C7 counterexample: on stdout holding only a fenced json block
with a JSON array, the extractor returns nothing although the block is
valid JSON — the early return on a missing opening brace precedes the
fence fallbacks. -/
theorem c7_fenced_json_counterexample :
    extract_json_from_stdout "```json\n[1,2]\n```" = none ∧
    parseJson "[1,2]" = some (Json.arr [Json.num 1, Json.num 2]) := by
  exact ⟨rfl, rfl⟩

/-- Claim C7 (amended): when the accumulated stdout contains no opening
brace at all, extract_json_from_stdout returns None outright — the
whole-output stage accepts only objects and the fenced-block fallbacks sit
behind the early return on finding a brace. -/
theorem c7_extractor_no_brace_amended :
    ∀ s : String, '{' ∉ s.data → extract_json_from_stdout s = none := by
  intro s hs
  have hfind : findCharIdx '{' s.data = none := findCharIdx_eq_none _ _ hs
  unfold extract_json_from_stdout
  cases hp : parseJson s with
  | none => simp [hp, hfind]
  | some j =>
    cases j with
    | obj m => exact absurd (parseJson_obj_mem s m hp) hs
    | null => simp [hp, hfind, Json.isObj]
    | bool b => simp [hp, hfind, Json.isObj]
    | num n => simp [hp, hfind, Json.isObj]
    | str t => simp [hp, hfind, Json.isObj]
    | arr xs => simp [hp, hfind, Json.isObj]

/-- Witness for the amended C7 statement at a concrete brace-free input. -/
theorem c7_extractor_no_brace_amended_witness :
    extract_json_from_stdout "```json\n[1,2]\n```" = none :=
  c7_extractor_no_brace_amended "```json\n[1,2]\n```" (by decide)

/-- Claim C8 (confirmed): after one stale-job sweep followed by one
stuck-entity sweep, running both sweeps again in immediate succession (the
same clock reading, no intervening activity) recovers zero jobs and zero
entities and leaves the database state unchanged. -/
theorem c8_recovery_idempotent :
    ∀ (now : Int) (db : RecDb),
      recover_stale_jobs now
          ((recover_stuck_entities ((recover_stale_jobs now db).1)).1) =
        ((recover_stuck_entities ((recover_stale_jobs now db).1)).1, 0) ∧
      recover_stuck_entities
          ((recover_stuck_entities ((recover_stale_jobs now db).1)).1) =
        ((recover_stuck_entities ((recover_stale_jobs now db).1)).1, 0) := by
  intro now db
  have h1 := detect_stale_jobs_after_sweeps now db
  have h2 := detect_stuck_leads_after_sweeps now db
  have h3 := detect_stuck_people_after_sweeps now db
  generalize hg : (recover_stuck_entities ((recover_stale_jobs now db).1)).1 = db1
    at h1 h2 h3 ⊢
  constructor
  · simp only [recover_stale_jobs, h1, List.foldl_nil, List.length_nil]
  · simp only [recover_stuck_entities, h2, h3, List.foldl_nil, List.length_nil]

/-- Claim C9 (confirmed): enrich_lead and enrich_person update only
currently-NULL columns of the target row via per-column COALESCE: every
enrichment column that was non-NULL keeps its exact value, every column
outside the enrichment set is unchanged, and rows with a different id are
untouched. -/
theorem c9_enrich_null_only :
    (∀ (e : LeadEnrichment) (l : Lead),
      ((∀ x, l.website = some x → (enrichLeadRow e l).website = some x) ∧
       (∀ x, l.industry = some x → (enrichLeadRow e l).industry = some x) ∧
       (∀ x, l.sub_industry = some x → (enrichLeadRow e l).sub_industry = some x) ∧
       (∀ x, l.employees = some x → (enrichLeadRow e l).employees = some x) ∧
       (∀ x, l.employee_range = some x → (enrichLeadRow e l).employee_range = some x) ∧
       (∀ x, l.revenue = some x → (enrichLeadRow e l).revenue = some x) ∧
       (∀ x, l.revenue_range = some x → (enrichLeadRow e l).revenue_range = some x) ∧
       (∀ x, l.company_linkedin_url = some x →
          (enrichLeadRow e l).company_linkedin_url = some x) ∧
       (∀ x, l.city = some x → (enrichLeadRow e l).city = some x) ∧
       (∀ x, l.state = some x → (enrichLeadRow e l).state = some x) ∧
       (∀ x, l.country = some x → (enrichLeadRow e l).country = some x)) ∧
      ((enrichLeadRow e l).id = l.id ∧
       (enrichLeadRow e l).company_name = l.company_name ∧
       (enrichLeadRow e l).research_status = l.research_status ∧
       (enrichLeadRow e l).researched_at = l.researched_at ∧
       (enrichLeadRow e l).user_status = l.user_status ∧
       (enrichLeadRow e l).created_at = l.created_at ∧
       (enrichLeadRow e l).company_profile = l.company_profile)) ∧
    (∀ (e : PersonEnrichment) (p : Person),
      ((∀ x, p.email = some x → (enrichPersonRow e p).email = some x) ∧
       (∀ x, p.title = some x → (enrichPersonRow e p).title = some x) ∧
       (∀ x, p.management_level = some x →
          (enrichPersonRow e p).management_level = some x) ∧
       (∀ x, p.linkedin_url = some x → (enrichPersonRow e p).linkedin_url = some x) ∧
       (∀ x, p.year_joined = some x → (enrichPersonRow e p).year_joined = some x)) ∧
      ((enrichPersonRow e p).id = p.id ∧
       (enrichPersonRow e p).lead_id = p.lead_id ∧
       (enrichPersonRow e p).first_name = p.first_name ∧
       (enrichPersonRow e p).last_name = p.last_name ∧
       (enrichPersonRow e p).person_profile = p.person_profile ∧
       (enrichPersonRow e p).research_status = p.research_status ∧
       (enrichPersonRow e p).researched_at = p.researched_at ∧
       (enrichPersonRow e p).user_status = p.user_status ∧
       (enrichPersonRow e p).conversation_topics = p.conversation_topics ∧
       (enrichPersonRow e p).conversation_generated_at = p.conversation_generated_at ∧
       (enrichPersonRow e p).created_at = p.created_at)) ∧
    (∀ (leads : List Lead) (leadId : Int) (e : LeadEnrichment) (l : Lead),
        l ∈ leads → l.id ≠ leadId → l ∈ enrich_lead leads leadId e) ∧
    (∀ (leads : List Lead) (leadId : Int) (e : LeadEnrichment) (l : Lead),
        l ∈ leads → l.id = leadId → enrichLeadRow e l ∈ enrich_lead leads leadId e) ∧
    (∀ (people : List Person) (personId : Int) (e : PersonEnrichment) (p : Person),
        p ∈ people → p.id ≠ personId → p ∈ enrich_person people personId e) ∧
    (∀ (people : List Person) (personId : Int) (e : PersonEnrichment) (p : Person),
        p ∈ people → p.id = personId →
          enrichPersonRow e p ∈ enrich_person people personId e) := by
  refine ⟨?_, ?_, ?_, ?_, ?_, ?_⟩
  · intro e l
    refine ⟨⟨?_, ?_, ?_, ?_, ?_, ?_, ?_, ?_, ?_, ?_, ?_⟩, ?_⟩ <;>
      first
      | (intro x h; simp [enrichLeadRow, coalesce, h])
      | simp [enrichLeadRow]
  · intro e p
    refine ⟨⟨?_, ?_, ?_, ?_, ?_⟩, ?_⟩ <;>
      first
      | (intro x h; simp [enrichPersonRow, coalesce, h])
      | simp [enrichPersonRow]
  · intro leads leadId e l hmem hne
    have h := List.mem_map_of_mem
      (fun l => if l.id = leadId then enrichLeadRow e l else l) hmem
    simpa [enrich_lead, hne] using h
  · intro leads leadId e l hmem heq
    have h := List.mem_map_of_mem
      (fun l => if l.id = leadId then enrichLeadRow e l else l) hmem
    simpa [enrich_lead, heq] using h
  · intro people personId e p hmem hne
    have h := List.mem_map_of_mem
      (fun p => if p.id = personId then enrichPersonRow e p else p) hmem
    simpa [enrich_person, hne] using h
  · intro people personId e p hmem heq
    have h := List.mem_map_of_mem
      (fun p => if p.id = personId then enrichPersonRow e p else p) hmem
    simpa [enrich_person, heq] using h

/-- Witness for C9: a lead whose website is already set keeps it. -/
theorem c9_enrich_null_only_witness :
    (enrichLeadRow
      { website := some "https://new.example", industry := some "Software",
        sub_industry := none, employees := some 50, employee_range := none,
        revenue := none, revenue_range := none, company_linkedin_url := none,
        city := none, state := none, country := none }
      { id := 1, company_name := "Acme", website := some "https://acme.example",
        industry := none, sub_industry := none, employees := none,
        employee_range := none, revenue := none, revenue_range := none,
        company_linkedin_url := none, city := none, state := none, country := none,
        research_status := "pending", researched_at := none, user_status := "new",
        created_at := 0, company_profile := none }).website =
      some "https://acme.example" :=
  (c9_enrich_null_only.1
    { website := some "https://new.example", industry := some "Software",
      sub_industry := none, employees := some 50, employee_range := none,
      revenue := none, revenue_range := none, company_linkedin_url := none,
      city := none, state := none, country := none }
    { id := 1, company_name := "Acme", website := some "https://acme.example",
      industry := none, sub_industry := none, employees := none,
      employee_range := none, revenue := none, revenue_range := none,
      company_linkedin_url := none, city := none, state := none, country := none,
      research_status := "pending", researched_at := none, user_status := "new",
      created_at := 0, company_profile := none }).1.1 "https://acme.example" rfl

/-- Claim C10 (confirmed): detect_stale_jobs selects exactly the
queued/running jobs whose created_at lies more than the 600 s threshold
before now, independently of started_at; consequently an on-demand sweep
marks as error (and resets the lead of) a running job that acquired its
permit within the 30 s queue timeout and is still inside its own 600 s
execution-timeout window. -/
theorem c10_stale_detection :
    (∀ (now : Int) (db : RecDb) (j : JobRow),
        j ∈ detect_stale_jobs now db ↔
          j ∈ db.jobs ∧ (j.status = "queued" ∨ j.status = "running") ∧
            j.created_at < now - STALE_JOB_THRESHOLD_SECS) ∧
    (∀ (now : Int) (j : JobRow) (t : Option Int),
        staleJobPred now { j with started_at := t } = staleJobPred now j) ∧
    ({ id := "job-1", job_type := "company_research", entity_id := 7,
       entity_label := "Acme", status := "running", exit_code := none,
       error_message := none, created_at := 0, started_at := some 29,
       completed_at := none } : JobRow) ∈
      detect_stale_jobs 601
        { jobs := [{ id := "job-1", job_type := "company_research", entity_id := 7,
                     entity_label := "Acme", status := "running", exit_code := none,
                     error_message := none, created_at := 0, started_at := some 29,
                     completed_at := none }],
          leads := [{ id := 7, company_name := "Acme",
                      research_status := "in_progress" }],
          people := [] } ∧
    (601 : Int) - 29 < 600 ∧ (29 : Int) - 0 ≤ 30 ∧
    recover_stale_jobs 601
        { jobs := [{ id := "job-1", job_type := "company_research", entity_id := 7,
                     entity_label := "Acme", status := "running", exit_code := none,
                     error_message := none, created_at := 0, started_at := some 29,
                     completed_at := none }],
          leads := [{ id := 7, company_name := "Acme",
                      research_status := "in_progress" }],
          people := [] } =
      ({ jobs := [{ id := "job-1", job_type := "company_research", entity_id := 7,
                    entity_label := "Acme", status := "error", exit_code := none,
                    error_message := some "Recovered stale job", created_at := 0,
                    started_at := some 29, completed_at := some 601 }],
         leads := [{ id := 7, company_name := "Acme",
                     research_status := "pending" }],
         people := [] }, 1) := by
  refine ⟨?_, ?_, by decide, by decide, by decide, by decide⟩
  · intro now db j
    simp [detect_stale_jobs, staleJobPred, List.mem_filter, and_assoc]
  · intro now j t
    rfl
